import Mathlib

/-!
Shallow embedding of the tax computation engine of the `tax_assistant`
repository (files `src/config/tax_constants.py`,
`src/modules/tax_calc/federal_tax.py`, `src/modules/tax_calc/louisiana_tax.py`,
`src/modules/assets/depreciation_calculator.py`).

Python floats are modelled by exact rationals (`ℚ`); every constant in the
source is an exact decimal, so all arithmetic identities of the spec are exact
here.  Python `raise` is modelled by `Except String`.  Presentation-only
dictionary fields (`rate_percent`, `effective_rate_percent`, `note`) are
omitted; every numeric field is kept.
-/

namespace TaxAssistant

/-- A tax bracket as in the constant tables of `tax_constants.py`:
`min`, `max` (with `none` standing for `float(&quot;inf&quot;)`), and marginal `rate`. -/
structure Bracket where
  lo : ℚ
  hi : Option ℚ
  rate : ℚ
deriving Repr, DecidableEq

/-- One entry of the `brackets_used` breakdown produced by both the federal and
the Louisiana bracket loops. -/
structure BracketUsed where
  lo : ℚ
  hi : Option ℚ
  rate : ℚ
  taxable_amount : ℚ
  tax : ℚ
deriving Repr, DecidableEq

/-- `FEDERAL_TAX_BRACKETS_MFJ_2024` from `tax_constants.py`. -/
def FEDERAL_TAX_BRACKETS_MFJ_2024 : List Bracket :=
  [⟨0, some 23200, 0.10⟩,
   ⟨23200, some 94300, 0.12⟩,
   ⟨94300, some 201050, 0.22⟩,
   ⟨201050, some 383900, 0.24⟩,
   ⟨383900, some 487450, 0.32⟩,
   ⟨487450, some 731200, 0.35⟩,
   ⟨731200, none, 0.37⟩]

/-- `FEDERAL_TAX_BRACKETS_SINGLE_2024` from `tax_constants.py`. -/
def FEDERAL_TAX_BRACKETS_SINGLE_2024 : List Bracket :=
  [⟨0, some 11600, 0.10⟩,
   ⟨11600, some 47150, 0.12⟩,
   ⟨47150, some 100525, 0.22⟩,
   ⟨100525, some 191950, 0.24⟩,
   ⟨191950, some 243725, 0.32⟩,
   ⟨243725, some 609350, 0.35⟩,
   ⟨609350, none, 0.37⟩]

/-- `LA_TAX_BRACKETS_2024` from `tax_constants.py`. -/
def LA_TAX_BRACKETS_2024 : List Bracket :=
  [⟨0, some 12500, 0.0185⟩,
   ⟨12500, some 50000, 0.035⟩,
   ⟨50000, none, 0.0425⟩]

/-- `STANDARD_DEDUCTION_2024` from `tax_constants.py` (a dict, modelled as an
association list). -/
def STANDARD_DEDUCTION_2024 : List (String × ℚ) :=
  [("single", 14600),
   ("married_filing_jointly", 29200),
   ("married_filing_separately", 14600),
   ("head_of_household", 21900)]

/-- `LA_STANDARD_DEDUCTION_2024` from `tax_constants.py`. -/
def LA_STANDARD_DEDUCTION_2024 : List (String × ℚ) :=
  [("single", 4500),
   ("married_filing_jointly", 9000),
   ("married_filing_separately", 4500),
   ("head_of_household", 4500)]

def SELF_EMPLOYMENT_DEDUCTION : ℚ := 0.9235
def SOCIAL_SECURITY_WAGE_BASE_2024 : ℚ := 168600
def ADDITIONAL_MEDICARE_TAX_THRESHOLD_MFJ : ℚ := 250000
def ADDITIONAL_MEDICARE_TAX_RATE : ℚ := 0.009
def SECTION_179_LIMIT_2024 : ℚ := 1220000
def SECTION_179_PHASE_OUT_THRESHOLD_2024 : ℚ := 3050000
def BONUS_DEPRECIATION_RATE_2024 : ℚ := 0.60
def BONUS_DEPRECIATION_RATE_2023 : ℚ := 0.80
def BONUS_DEPRECIATION_RATE_2022 : ℚ := 1.00
def LA_PERSONAL_EXEMPTION_2024 : ℚ := 4500
def LA_DEPENDENT_EXEMPTION_2024 : ℚ := 1000
def LA_ALLOWS_FEDERAL_ITEMIZED_DEDUCTION : Bool := true

/-- `get_tax_brackets` from `tax_constants.py`.  The `state` argument is the
optional keyword argument; the federal calculator calls it with `state = none`.
Any filing status other than the two recognized ones falls through to the
single-filer brackets. -/
def get_tax_brackets (filing_status : String) (state : Option String) : List Bracket :=
  if state = some "LA" then LA_TAX_BRACKETS_2024
  else if filing_status = "married_filing_jointly" then FEDERAL_TAX_BRACKETS_MFJ_2024
  else if filing_status = "single" then FEDERAL_TAX_BRACKETS_SINGLE_2024
  else FEDERAL_TAX_BRACKETS_SINGLE_2024

/-- `get_standard_deduction` from `tax_constants.py`: a `dict.get` with
default `0`. -/
def get_standard_deduction (filing_status : String) (state : Option String) : ℚ :=
  if state = some "LA" then (LA_STANDARD_DEDUCTION_2024.lookup filing_status).getD 0
  else (STANDARD_DEDUCTION_2024.lookup filing_status).getD 0

/-- The state held by a `FederalTaxCalculator` instance after `__init__`:
the filing status, tax year, and the bracket/deduction tables selected at
construction. -/
structure FederalTaxCalculator where
  filing_status : String
  tax_year : Int
  tax_brackets : List Bracket
  standard_deduction : ℚ
deriving Repr, DecidableEq

/-- `FederalTaxCalculator.__init__`: looks the tables up by filing status
(with no state argument) and always succeeds. -/
def FederalTaxCalculator.init (filing_status : String) (tax_year : Int) :
    FederalTaxCalculator :=
  ⟨filing_status, tax_year,
   get_tax_brackets filing_status none,
   get_standard_deduction filing_status none⟩

/-- Result dictionary of `FederalTaxCalculator.calculate_income_tax`. -/
structure IncomeTaxResult where
  taxable_income : ℚ
  total_tax : ℚ
  effective_rate : ℚ
  brackets_used : List BracketUsed
deriving Repr, DecidableEq

/-- The bracket loop inside `FederalTaxCalculator.calculate_income_tax`
(federal_tax.py lines 117-147): walks the brackets carrying
`remaining_income`, breaking once it is exhausted; in each bracket with
`bracket_min` below the income it taxes
`min(remaining_income, bracket_max - bracket_min)` at the bracket rate
(`bracket_max - bracket_min` is `inf` for the top bracket, so the `min` is
`remaining_income` there). -/
def fedBracketWalk (taxable_income : ℚ) : List Bracket → ℚ → ℚ × List BracketUsed
  | [], _ => (0, [])
  | b :: bs, remaining =>
    if remaining ≤ 0 then (0, [])
    else if b.lo < taxable_income then
      let width : ℚ :=
        match b.hi with
        | none => remaining
        | some h => min remaining (h - b.lo)
      let taxHere := width * b.rate
      let rest := fedBracketWalk taxable_income bs (remaining - width)
      (taxHere + rest.1, ⟨b.lo, b.hi, b.rate, width, taxHere⟩ :: rest.2)
    else
      fedBracketWalk taxable_income bs remaining

/-- `FederalTaxCalculator.calculate_income_tax` over a given bracket table
(the instance attribute `self.tax_brackets`). -/
def calculate_income_tax (brackets : List Bracket) (taxable_income : ℚ) :
    IncomeTaxResult :=
  if taxable_income ≤ 0 then ⟨0, 0, 0, []⟩
  else
    let w := fedBracketWalk taxable_income brackets taxable_income
    ⟨taxable_income, w.1,
     if 0 < taxable_income then w.1 / taxable_income else 0, w.2⟩

/-- Result dictionary of `calculate_self_employment_tax`.  In the
`net_earnings <= 0` branch the Python dict carries no
`social_security_base` key, modelled here by `none`. -/
structure SeTaxResult where
  net_farm_profit : ℚ
  net_earnings : ℚ
  social_security_tax : ℚ
  social_security_base : Option ℚ
  medicare_tax : ℚ
  additional_medicare_tax : ℚ
  total_se_tax : ℚ
  deductible_se_tax : ℚ
deriving Repr, DecidableEq

/-- `FederalTaxCalculator.calculate_self_employment_tax`. -/
def calculate_self_employment_tax (filing_status : String) (net_farm_profit : ℚ) :
    SeTaxResult :=
  let net_earnings := net_farm_profit * SELF_EMPLOYMENT_DEDUCTION
  if net_earnings ≤ 0 then
    ⟨net_farm_profit, 0, 0, none, 0, 0, 0, 0⟩
  else
    let social_security_base := min net_earnings SOCIAL_SECURITY_WAGE_BASE_2024
    let social_security_tax := social_security_base * 0.124
    let medicare_tax := net_earnings * 0.029
    let threshold : ℚ :=
      if filing_status = "married_filing_jointly" then
        ADDITIONAL_MEDICARE_TAX_THRESHOLD_MFJ
      else 200000
    let additional_medicare_tax :=
      if threshold < net_earnings then
        (net_earnings - threshold) * ADDITIONAL_MEDICARE_TAX_RATE
      else 0
    let total_se_tax := social_security_tax + medicare_tax + additional_medicare_tax
    ⟨net_farm_profit, net_earnings, social_security_tax, some social_security_base,
     medicare_tax, additional_medicare_tax, total_se_tax, total_se_tax * 0.50⟩

/-- Result dictionary of `calculate_farm_tax_liability` (numeric fields). -/
structure FarmTaxResult where
  farm_income : ℚ
  farm_expenses : ℚ
  depreciation : ℚ
  total_farm_deductions : ℚ
  net_farm_profit : ℚ
  other_income : ℚ
  self_employment_tax : SeTaxResult
  agi : ℚ
  deduction_type : String
  deduction_amount : ℚ
  taxable_income : ℚ
  income_tax : IncomeTaxResult
  total_federal_tax : ℚ
  effective_total_rate : ℚ
deriving Repr, DecidableEq

/-- `FederalTaxCalculator.calculate_farm_tax_liability`. -/
def calculate_farm_tax_liability (c : FederalTaxCalculator)
    (total_income total_expenses depreciation other_income itemized_deductions : ℚ)
    (use_standard_deduction : Bool) : FarmTaxResult :=
  let total_deductions := total_expenses + depreciation
  let net_farm_profit := total_income - total_deductions
  let se_tax_calc := calculate_self_employment_tax c.filing_status net_farm_profit
  let agi := net_farm_profit + other_income - se_tax_calc.deductible_se_tax
  let deduction := if use_standard_deduction then c.standard_deduction else itemized_deductions
  let deduction_type := if use_standard_deduction then "standard" else "itemized"
  let taxable_income := max 0 (agi - deduction)
  let income_tax_calc := calculate_income_tax c.tax_brackets taxable_income
  let total_federal_tax := income_tax_calc.total_tax + se_tax_calc.total_se_tax
  ⟨total_income, total_expenses, depreciation, total_deductions, net_farm_profit,
   other_income, se_tax_calc, agi, deduction_type, deduction, taxable_income,
   income_tax_calc, total_federal_tax,
   if 0 < agi then total_federal_tax / agi else 0⟩

/-- Result dictionary of `calculate_farm_income_averaging` (numeric fields). -/
structure FarmAveragingResult where
  current_year_income : ℚ
  prior_year_incomes : List ℚ
  average_prior_income : ℚ
  elected_farm_income : ℚ
  allocated_per_year : ℚ
deriving Repr, DecidableEq

/-- `FederalTaxCalculator.calculate_farm_income_averaging`: raises `ValueError`
unless exactly three prior-year incomes are supplied. -/
def calculate_farm_income_averaging (current_year_income : ℚ)
    (prior_year_incomes : List ℚ) : Except String FarmAveragingResult :=
  if prior_year_incomes.length ≠ 3 then
    .error "Must provide exactly 3 prior years of income"
  else
    let avg_prior_income := prior_year_incomes.sum / 3
    let elected_farm_income := max 0 (current_year_income - avg_prior_income)
    .ok ⟨current_year_income, prior_year_incomes, avg_prior_income,
         elected_farm_income, elected_farm_income / 3⟩

/-- Result dictionary of `estimate_quarterly_taxes` (numeric fields). -/
structure QuarterlyResult where
  estimated_annual_tax : ℚ
  quarterly_amount : ℚ
  total_paid : ℚ
  remaining_due : ℚ
  recommended_next_payment : ℚ
deriving Repr, DecidableEq

/-- `FederalTaxCalculator.estimate_quarterly_taxes`. -/
def estimate_quarterly_taxes (estimated_annual_tax : ℚ)
    (payments_made : Option (List ℚ)) : QuarterlyResult :=
  let payments := payments_made.getD [0, 0, 0, 0]
  let quarterly_amount := estimated_annual_tax / 4
  let total_paid := payments.sum
  let remaining := max 0 (estimated_annual_tax - total_paid)
  let quarters_remaining : Int := 4 - (payments.filter (fun p => 0 < p)).length
  let recommended :=
    if 0 < quarters_remaining then remaining / (quarters_remaining : ℚ) else 0
  ⟨estimated_annual_tax, quarterly_amount, total_paid, remaining, recommended⟩

/-- Result dictionary of `calculate_louisiana_income_tax` (the
`rate_percent` and `effective_rate_percent` formatting strings are omitted). -/
structure LaIncomeTaxResult where
  louisiana_agi : ℚ
  deduction_type : String
  deduction_amount : ℚ
  personal_exemptions : ℚ
  dependent_exemptions : ℚ
  total_exemptions : ℚ
  taxable_income : ℚ
  total_tax : ℚ
  effective_rate : ℚ
  brackets_used : List BracketUsed
deriving Repr, DecidableEq

/-- The inline bracket loop of `calculate_louisiana_income_tax`
(louisiana_tax.py lines 77-100): for each bracket with `bracket_min` below
the taxable income, taxes `income - bracket_min` when the income is at most
`bracket_max` and the full bracket width otherwise (the top bracket has
`bracket_max = inf`, and `income <= inf` always holds). -/
def laBracketWalk (x : ℚ) : List Bracket → ℚ × List BracketUsed
  | [] => (0, [])
  | b :: bs =>
    let rest := laBracketWalk x bs
    if b.lo < x then
      let width : ℚ :=
        match b.hi with
        | none => x - b.lo
        | some h => if x ≤ h then x - b.lo else h - b.lo
      let taxHere := width * b.rate
      (taxHere + rest.1, ⟨b.lo, b.hi, b.rate, width, taxHere⟩ :: rest.2)
    else rest

/-- `LouisianaTaxCalculator.calculate_louisiana_income_tax`.  The instance
bracket table is always `LA_TAX_BRACKETS_2024`; the filing status is the
instance attribute set at construction.  Exemption and dependent counts are
Python ints. -/
def calculate_louisiana_income_tax (filing_status : String) (louisiana_agi : ℚ)
    (num_exemptions num_dependents : Int) (federal_itemized_deductions : ℚ)
    (use_standard_deduction : Bool) : LaIncomeTaxResult :=
  let deduction : ℚ :=
    if use_standard_deduction then
      if filing_status = "married_filing_jointly" then
        (LA_STANDARD_DEDUCTION_2024.lookup "married_filing_jointly").getD 0
      else if filing_status = "single" then
        (LA_STANDARD_DEDUCTION_2024.lookup "single").getD 0
      else (LA_STANDARD_DEDUCTION_2024.lookup filing_status).getD 0
    else
      if LA_ALLOWS_FEDERAL_ITEMIZED_DEDUCTION then federal_itemized_deductions else 0
  let deduction_type := if use_standard_deduction then "standard" else "itemized"
  let personal_exemptions := (num_exemptions : ℚ) * LA_PERSONAL_EXEMPTION_2024
  let dependent_exemptions := (num_dependents : ℚ) * LA_DEPENDENT_EXEMPTION_2024
  let total_exemptions := personal_exemptions + dependent_exemptions
  let la_taxable_income := max 0 (louisiana_agi - deduction - total_exemptions)
  let w := laBracketWalk la_taxable_income LA_TAX_BRACKETS_2024
  ⟨louisiana_agi, deduction_type, deduction, personal_exemptions,
   dependent_exemptions, total_exemptions, la_taxable_income, w.1,
   if 0 < louisiana_agi then w.1 / louisiana_agi else 0, w.2⟩

/-- Result dictionary of `calculate_louisiana_farm_tax`. -/
structure LaFarmTaxResult where
  net_farm_profit : ℚ
  other_income : ℚ
  federal_se_tax_deduction : ℚ
  louisiana_agi : ℚ
  tax_calculation : LaIncomeTaxResult
  total_louisiana_tax : ℚ
deriving Repr, DecidableEq

/-- `LouisianaTaxCalculator.calculate_louisiana_farm_tax`. -/
def calculate_louisiana_farm_tax (filing_status : String)
    (net_farm_profit other_income federal_se_tax_deduction : ℚ)
    (num_exemptions num_dependents : Int) (use_standard_deduction : Bool)
    (federal_itemized_deductions : ℚ) : LaFarmTaxResult :=
  let la_agi := net_farm_profit + other_income - federal_se_tax_deduction
  let la_tax_calc := calculate_louisiana_income_tax filing_status la_agi
    num_exemptions num_dependents federal_itemized_deductions use_standard_deduction
  ⟨net_farm_profit, other_income, federal_se_tax_deduction, la_agi, la_tax_calc,
   la_tax_calc.total_tax⟩

/-- Result dictionary of `CombinedTaxCalculator.calculate_combined_tax`
(numeric and sub-result fields). -/
structure CombinedTaxResult where
  net_farm_profit : ℚ
  agi : ℚ
  federal_tax : FarmTaxResult
  louisiana_tax : LaFarmTaxResult
  total_federal_tax : ℚ
  total_louisiana_tax : ℚ
  total_tax_liability : ℚ
  combined_effective_rate : ℚ
deriving Repr, DecidableEq

/-- `CombinedTaxCalculator.calculate_combined_tax`: federal first, then the
Louisiana farm tax fed with the federal net profit and deductible SE tax. -/
def calculate_combined_tax (filing_status : String) (tax_year : Int)
    (total_income total_expenses depreciation other_income : ℚ)
    (num_exemptions num_dependents : Int) (use_standard_deduction : Bool)
    (itemized_deductions : ℚ) : CombinedTaxResult :=
  let fed := calculate_farm_tax_liability
    (FederalTaxCalculator.init filing_status tax_year)
    total_income total_expenses depreciation other_income itemized_deductions
    use_standard_deduction
  let la := calculate_louisiana_farm_tax filing_status fed.net_farm_profit
    other_income fed.self_employment_tax.deductible_se_tax num_exemptions
    num_dependents use_standard_deduction itemized_deductions
  let total_tax_liability := fed.total_federal_tax + la.total_louisiana_tax
  ⟨fed.net_farm_profit, fed.agi, fed, la, fed.total_federal_tax,
   la.total_louisiana_tax, total_tax_liability,
   if 0 < fed.agi then total_tax_liability / fed.agi else 0⟩

/-- A placed-in-service date; only the year is ever read by the depreciation
engine, so only the year is modelled. -/
structure SimpleDate where
  year : Int
deriving Repr, DecidableEq

/-- `DepreciationCalculator.get_bonus_depreciation_rate` for a resolved year. -/
def get_bonus_depreciation_rate (year : Int) : ℚ :=
  if 2024 ≤ year then BONUS_DEPRECIATION_RATE_2024
  else if year = 2023 then BONUS_DEPRECIATION_RATE_2023
  else BONUS_DEPRECIATION_RATE_2022

/-- Result dictionary of `calculate_section_179`. -/
structure Section179Result where
  section_179_amount : ℚ
  remaining_basis : ℚ
  max_available : ℚ
  fully_expensed : Bool
deriving Repr, DecidableEq

/-- `DepreciationCalculator.calculate_section_179`.  The Python guard
`if total_equipment_placed and total_equipment_placed > THRESHOLD` is falsy for
`None` and for `0.0`, kept as the conjunction below. -/
def calculate_section_179 (asset_cost : ℚ) (total_equipment_placed : Option ℚ)
    (elected_amount : Option ℚ) : Section179Result :=
  let max_deduction : ℚ :=
    match total_equipment_placed with
    | none => SECTION_179_LIMIT_2024
    | some t =>
      if t ≠ 0 ∧ SECTION_179_PHASE_OUT_THRESHOLD_2024 < t then
        max 0 (SECTION_179_LIMIT_2024 - (t - SECTION_179_PHASE_OUT_THRESHOLD_2024))
      else SECTION_179_LIMIT_2024
  let section_179_amount : ℚ :=
    match elected_amount with
    | some e => min e (min asset_cost max_deduction)
    | none => min asset_cost max_deduction
  ⟨section_179_amount, asset_cost - section_179_amount, max_deduction,
   section_179_amount = asset_cost⟩

/-- Result dictionary of `calculate_bonus_depreciation`. -/
structure BonusResult where
  bonus_amount : ℚ
  bonus_rate : ℚ
  remaining_basis : ℚ
  fully_depreciated : Bool
deriving Repr, DecidableEq

/-- `DepreciationCalculator.calculate_bonus_depreciation`: the rate comes from
the placed-in-service year when a date is given, else from the instance year. -/
def calculate_bonus_depreciation (self_tax_year : Int) (remaining_basis : ℚ)
    (placed_in_service_date : Option SimpleDate) : BonusResult :=
  let year :=
    match placed_in_service_date with
    | some d => d.year
    | none => self_tax_year
  let bonus_rate := get_bonus_depreciation_rate year
  let bonus_amount := remaining_basis * bonus_rate
  ⟨bonus_amount, bonus_rate, remaining_basis - bonus_amount,
   bonus_amount = remaining_basis⟩

/-- One `MACRS_CLASSES` entry from `tax_constants.py`. -/
structure ClassInfo where
  recovery_period : ℚ
  convention : String
  depreciation_method : String
deriving Repr, DecidableEq

/-- `MACRS_CLASSES` from `tax_constants.py` (descriptions omitted). -/
def MACRS_CLASSES : List (String × ClassInfo) :=
  [("3-year", ⟨3, "half-year", "DDB"⟩),
   ("5-year", ⟨5, "half-year", "DDB"⟩),
   ("7-year", ⟨7, "half-year", "DDB"⟩),
   ("10-year", ⟨10, "half-year", "DDB"⟩),
   ("15-year", ⟨15, "half-year", "SL"⟩),
   ("20-year", ⟨20, "half-year", "SL"⟩),
   ("27.5-year", ⟨27.5, "mid-month", "SL"⟩),
   ("39-year", ⟨39, "mid-month", "SL"⟩)]

/-- `MACRS_DEPRECIATION_RATES_HY` from `tax_constants.py`. -/
def MACRS_DEPRECIATION_RATES_HY : List (Int × List ℚ) :=
  [(3, [0.3333, 0.4445, 0.1481, 0.0741]),
   (5, [0.2000, 0.3200, 0.1920, 0.1152, 0.1152, 0.0576]),
   (7, [0.1429, 0.2449, 0.1749, 0.1249, 0.0893, 0.0892, 0.0893, 0.0446]),
   (10, [0.1000, 0.1800, 0.1440, 0.1152, 0.0922, 0.0737, 0.0655, 0.0655,
         0.0656, 0.0655, 0.0328]),
   (15, [0.0500, 0.0950, 0.0855, 0.0770, 0.0693, 0.0623, 0.0590, 0.0590,
         0.0591, 0.0590, 0.0591, 0.0590, 0.0591, 0.0590, 0.0591, 0.0295]),
   (20, [0.0375, 0.0722, 0.0668, 0.0618, 0.0571, 0.0528, 0.0489, 0.0452,
         0.0447, 0.0447, 0.0446, 0.0446, 0.0446, 0.0446, 0.0446, 0.0446,
         0.0446, 0.0446, 0.0446, 0.0446, 0.0223])]

/-- Result dictionary of `calculate_macrs_depreciation`.  In the
`asset_basis <= 0` early return the Python dict carries no `recovery_period`
key, modelled by `none`. -/
structure MacrsResult where
  macrs_amount : ℚ
  depreciation_rate : ℚ
  year_in_service : Nat
  recovery_period : Option Int
  fully_depreciated : Bool
deriving Repr, DecidableEq

/-- `DepreciationCalculator.calculate_macrs_depreciation`.  Python computes
`recovery_period = int(class_info[..])`, truncating `27.5` to `27`; classes
whose truncated period is not a key of the half-year table fall back to the
rate `1 / recovery_period` with that truncated integer period.  An unknown
class raises `ValueError`, but only after the `asset_basis <= 0` early
return.  `year_in_service` is at least 1 in every caller. -/
def calculate_macrs_depreciation (asset_basis : ℚ) (macrs_class : String)
    (year_in_service : Nat) : Except String MacrsResult :=
  if asset_basis ≤ 0 then
    .ok ⟨0, 0, year_in_service, none, true⟩
  else
    match MACRS_CLASSES.lookup macrs_class with
    | none => .error ("Invalid MACRS class: " ++ macrs_class)
    | some class_info =>
      let recovery_period : Int := ⌊class_info.recovery_period⌋
      let fully := ((MACRS_DEPRECIATION_RATES_HY.lookup recovery_period).getD
        []).length < year_in_service
      match MACRS_DEPRECIATION_RATES_HY.lookup recovery_period with
      | some rates =>
        let depreciation_rate := rates.getD (year_in_service - 1) 0
        .ok ⟨asset_basis * depreciation_rate, depreciation_rate,
             year_in_service, some recovery_period, fully⟩
      | none =>
        let depreciation_rate := 1 / (recovery_period : ℚ)
        .ok ⟨asset_basis * depreciation_rate, depreciation_rate,
             year_in_service, some recovery_period, fully⟩

/-- Result dictionary of `calculate_total_depreciation` (numeric fields). -/
structure TotalDepreciationResult where
  asset_cost : ℚ
  tax_year : Int
  section_179 : ℚ
  bonus_depreciation : ℚ
  macrs_depreciation : ℚ
  total_depreciation : ℚ
  remaining_basis : ℚ
  basis_for_future_macrs : ℚ
deriving Repr, DecidableEq

/-- `DepreciationCalculator.calculate_total_depreciation`: Section 179 (when
elected and the basis is positive), then bonus depreciation on the remaining
basis, then first-year MACRS on what is left; each guarded step passes its
output basis to the next. -/
def calculate_total_depreciation (self_tax_year : Int) (asset_cost : ℚ)
    (macrs_class : String) (placed_in_service_date : Option SimpleDate)
    (tax_year : Option Int) (use_section_179 : Bool)
    (section_179_amount : Option ℚ) (use_bonus : Bool)
    (total_equipment_placed : Option ℚ) :
    Except String TotalDepreciationResult :=
  let year := tax_year.getD self_tax_year
  let step179 : ℚ × ℚ :=
    if use_section_179 ∧ 0 < asset_cost then
      let r := calculate_section_179 asset_cost total_equipment_placed
        section_179_amount
      (r.section_179_amount, r.remaining_basis)
    else (0, asset_cost)
  let stepBonus : ℚ × ℚ :=
    if use_bonus ∧ 0 < step179.2 then
      let r := calculate_bonus_depreciation self_tax_year step179.2
        placed_in_service_date
      (r.bonus_amount, r.remaining_basis)
    else (0, step179.2)
  if 0 < stepBonus.2 then
    match calculate_macrs_depreciation stepBonus.2 macrs_class 1 with
    | .error e => .error e
    | .ok m =>
      .ok ⟨asset_cost, year, step179.1, stepBonus.1, m.macrs_amount,
           step179.1 + stepBonus.1 + m.macrs_amount,
           stepBonus.2 - m.macrs_amount,
           asset_cost - step179.1 - stepBonus.1⟩
  else
    .ok ⟨asset_cost, year, step179.1, stepBonus.1, 0,
         step179.1 + stepBonus.1 + 0, stepBonus.2,
         asset_cost - step179.1 - stepBonus.1⟩

/-! ## Spec-side closed form of the bracket evaluator

`bracketPortion` renders the words of spec section 4.1: the length of the
portion of `[0, x)` lying in `[lower_bound, min(upper_bound, x))`, an
unbounded upper bound imposing no cap.  `specBracketTax` is the sum over
brackets of `rate_i` times that portion.  These definitions follow the spec
text and are compared with the walks embedded from the source. -/

/-- Length of the portion of the taxable amount `x` that falls within
`[lower_bound, min(upper_bound, x))`. -/
def bracketPortion (b : Bracket) (x : ℚ) : ℚ :=
  match b.hi with
  | none => max 0 (x - b.lo)
  | some h => max 0 (min h x - b.lo)

/-- Spec formula: total tax is the sum over brackets of the rate times the
portion of the income inside the bracket. -/
def specBracketTax (bs : List Bracket) (x : ℚ) : ℚ :=
  (bs.map (fun b => bracketPortion b x * b.rate)).sum

/-- Spec-side breakdown: one entry per bracket whose lower bound lies below
the income, taxing the portion of the income inside the bracket. -/
def specBreakdown (bs : List Bracket) (x : ℚ) : List BracketUsed :=
  (bs.filter (fun b => decide (b.lo < x))).map
    (fun b => ⟨b.lo, b.hi, b.rate, bracketPortion b x, bracketPortion b x * b.rate⟩)

/-- Well-formedness of a bracket schedule starting at `s`: each lower bound
continues where the previous upper bound stopped, finite brackets are
non-empty, and an unbounded bracket is last. -/
def contiguousFromB : ℚ → List Bracket → Bool
  | _, [] => true
  | s, b :: bs =>
    match b.hi with
    | none => decide (b.lo = s) && bs.isEmpty
    | some h => decide (b.lo = s) && decide (s ≤ h) && contiguousFromB h bs

/-- All marginal rates of a schedule are non-negative. -/
def ratesNonnegB (bs : List Bracket) : Bool :=
  bs.all (fun b => decide (0 ≤ b.rate))

lemma specBracketTax_nil (x : ℚ) : specBracketTax [] x = 0 := rfl

lemma specBracketTax_cons (b : Bracket) (bs : List Bracket) (x : ℚ) :
    specBracketTax (b :: bs) x = bracketPortion b x * b.rate + specBracketTax bs x := by
  simp [specBracketTax]

lemma specBreakdown_nil (x : ℚ) : specBreakdown [] x = [] := rfl

lemma specBreakdown_cons_pos {b : Bracket} {x : ℚ} (bs : List Bracket)
    (hblo : b.lo < x) :
    specBreakdown (b :: bs) x =
      ⟨b.lo, b.hi, b.rate, bracketPortion b x, bracketPortion b x * b.rate⟩ ::
        specBreakdown bs x := by
  simp [specBreakdown, List.filter_cons, hblo]

lemma specBreakdown_cons_neg {b : Bracket} {x : ℚ} (bs : List Bracket)
    (hblo : ¬ b.lo < x) : specBreakdown (b :: bs) x = specBreakdown bs x := by
  simp [specBreakdown, List.filter_cons, hblo]

lemma contiguousFromB_le {s : ℚ} {b : Bracket} {bs : List Bracket}
    (hc : contiguousFromB s (b :: bs) = true) :
    b.lo = s ∧ ∀ h, b.hi = some h → s ≤ h ∧ contiguousFromB h bs = true := by
  cases hb : b.hi with
  | none =>
    simp only [contiguousFromB, hb, Bool.and_eq_true, decide_eq_true_eq] at hc
    exact ⟨hc.1, fun h hh => by simp [hb] at hh⟩
  | some h =>
    simp only [contiguousFromB, hb, Bool.and_eq_true, decide_eq_true_eq] at hc
    refine ⟨hc.1.1, fun h2 hh => ?_⟩
    injection hh with hh
    subst hh
    exact ⟨hc.1.2, hc.2⟩

lemma contiguousFromB_none {s : ℚ} {b : Bracket} {bs : List Bracket}
    (hc : contiguousFromB s (b :: bs) = true) (hb : b.hi = none) : bs = [] := by
  simp only [contiguousFromB, hb, Bool.and_eq_true, decide_eq_true_eq,
    List.isEmpty_iff] at hc
  exact hc.2

/-- Below the start of a contiguous schedule every portion is empty. -/
lemma specBracketTax_of_le {x : ℚ} : ∀ {s : ℚ} {bs : List Bracket},
    contiguousFromB s bs = true → x ≤ s →
    specBracketTax bs x = 0 ∧ specBreakdown bs x = [] := by
  intro s bs
  induction bs generalizing s with
  | nil => intro _ _; exact ⟨rfl, rfl⟩
  | cons b bs ih =>
    intro hc hx
    obtain ⟨hlo, hrest⟩ := contiguousFromB_le hc
    have hblo : ¬ b.lo < x := by rw [hlo]; exact not_lt.mpr hx
    have hport : bracketPortion b x = 0 := by
      cases hb : b.hi with
      | none =>
        simp only [bracketPortion, hb, max_eq_left_iff, sub_nonpos]
        exact hx.trans_eq hlo.symm
      | some h =>
        simp only [bracketPortion, hb, max_eq_left_iff, sub_nonpos]
        exact (min_le_right h x).trans (hx.trans_eq hlo.symm)
    cases hb : b.hi with
    | none =>
      have hbs := contiguousFromB_none hc hb
      subst hbs
      constructor
      · rw [specBracketTax_cons, hport, specBracketTax_nil]; ring
      · rw [specBreakdown_cons_neg _ hblo, specBreakdown_nil]
    | some h =>
      obtain ⟨hsh, hc2⟩ := hrest h hb
      obtain ⟨ih1, ih2⟩ := ih hc2 (hx.trans hsh)
      constructor
      · rw [specBracketTax_cons, hport, ih1]; ring
      · rw [specBreakdown_cons_neg _ hblo, ih2]

/-- A federal walk with no income left to allocate ends at once. -/
lemma fedBracketWalk_of_nonpos (x : ℚ) (bs : List Bracket) {r : ℚ} (hr : r ≤ 0) :
    fedBracketWalk x bs r = (0, []) := by
  cases bs with
  | nil => rfl
  | cons b bs => simp [fedBracketWalk, hr]

/-- The federal bracket loop of `calculate_income_tax`, entered with the
still-unallocated income `x - s` against the suffix of the schedule starting
at `s`, produces exactly the spec-formula totals and breakdown. -/
lemma fedBracketWalk_eq_spec (x : ℚ) : ∀ {s : ℚ} {bs : List Bracket},
    contiguousFromB s bs = true →
    fedBracketWalk x bs (x - s) = (specBracketTax bs x, specBreakdown bs x) := by
  intro s bs
  induction bs generalizing s with
  | nil => intro _; simp [fedBracketWalk, specBracketTax, specBreakdown]
  | cons b bs ih =>
    intro hc
    obtain ⟨hlo, hrest⟩ := contiguousFromB_le hc
    by_cases hxs : x - s ≤ 0
    · have hx : x ≤ s := by linarith
      obtain ⟨h1, h2⟩ := specBracketTax_of_le hc hx
      rw [fedBracketWalk_of_nonpos x _ hxs, h1, h2]
    · have hx : s < x := by
        push_neg at hxs; linarith
      have hblo : b.lo < x := hlo ▸ hx
      cases hb : b.hi with
      | none =>
        have hbs := contiguousFromB_none hc hb
        subst hbs
        have hport : bracketPortion b x = x - s := by
          simp only [bracketPortion, hb, hlo]
          exact max_eq_right (by linarith)
        rw [specBracketTax_cons, specBracketTax_nil, specBreakdown_cons_pos _ hblo,
          specBreakdown_nil, hport]
        simp only [fedBracketWalk, if_neg hxs, if_pos hblo, hb]
      | some h =>
        obtain ⟨hsh, hc2⟩ := hrest h hb
        have hport : bracketPortion b x = min (x - s) (h - b.lo) := by
          simp only [bracketPortion, hb, hlo]
          rcases le_total x h with hxh | hxh
          · rw [min_eq_right hxh, min_eq_left (by linarith), max_eq_right (by linarith)]
          · rw [min_eq_left hxh, min_eq_right (by linarith), max_eq_right (by linarith)]
        rw [specBracketTax_cons, specBreakdown_cons_pos _ hblo, hport]
        rcases le_total h x with hhx | hhx
        · -- the bracket fills completely; the loop continues with x - h left
          have hmin : min (x - s) (h - b.lo) = h - b.lo := min_eq_right (by rw [hlo]; linarith)
          have hrec : (x - s) - (h - b.lo) = x - h := by rw [hlo]; ring
          have ihh := ih hc2
          simp only [fedBracketWalk, if_neg (by linarith : ¬ x - s ≤ 0), if_pos hblo, hb]
          rw [hmin, hrec, ihh]
        · -- the income ends inside this bracket; nothing is left afterwards
          have hmin : min (x - s) (h - b.lo) = x - s := min_eq_left (by rw [hlo]; linarith)
          have hzero : (x - s) - (x - s) = 0 := by ring
          obtain ⟨hs1, hs2⟩ := specBracketTax_of_le hc2 hhx
          simp only [fedBracketWalk, if_neg (by linarith : ¬ x - s ≤ 0), if_pos hblo, hb]
          rw [hmin, hzero, fedBracketWalk_of_nonpos x bs le_rfl, hs1, hs2]

/-- Finite brackets of a contiguous schedule are non-empty intervals. -/
lemma contiguousFromB_width {s : ℚ} {bs : List Bracket}
    (hc : contiguousFromB s bs = true) :
    ∀ b ∈ bs, ∀ h, b.hi = some h → b.lo ≤ h := by
  induction bs generalizing s with
  | nil => intro b hb; cases hb
  | cons c cs ih =>
    intro b hb h hh
    obtain ⟨hlo, hrest⟩ := contiguousFromB_le hc
    rcases List.mem_cons.mp hb with hbc | hbc
    · subst hbc
      exact hlo ▸ (hrest h hh).1
    · cases hch : c.hi with
      | none =>
        have := contiguousFromB_none hc hch
        subst this; cases hbc
      | some h2 =>
        exact ih (hrest h2 hch).2 b hbc h hh

/-- The Louisiana inline bracket loop produces the spec-formula totals and
breakdown, provided every finite bracket is a non-empty interval. -/
lemma laBracketWalk_eq_spec (x : ℚ) : ∀ {bs : List Bracket},
    (∀ b ∈ bs, ∀ h, b.hi = some h → b.lo ≤ h) →
    laBracketWalk x bs = (specBracketTax bs x, specBreakdown bs x) := by
  intro bs
  induction bs with
  | nil => intro _; simp [laBracketWalk, specBracketTax, specBreakdown]
  | cons b bs ih =>
    intro hw
    have ihh := ih (fun c hc => hw c (List.mem_cons_of_mem b hc))
    by_cases hblo : b.lo < x
    · have hport : bracketPortion b x =
          (match b.hi with
           | none => x - b.lo
           | some h => if x ≤ h then x - b.lo else h - b.lo) := by
        cases hb : b.hi with
        | none => simp only [bracketPortion, hb]; exact max_eq_right (by linarith)
        | some h =>
          have hwb : b.lo ≤ h := hw b (List.mem_cons_self b bs) h hb
          simp only [bracketPortion, hb]
          by_cases hxh : x ≤ h
          · rw [if_pos hxh, min_eq_right hxh, max_eq_right (by linarith)]
          · rw [if_neg hxh, min_eq_left (by linarith), max_eq_right (by linarith)]
      rw [specBracketTax_cons, specBreakdown_cons_pos _ hblo, hport]
      simp only [laBracketWalk, if_pos hblo, ihh]
    · have hport : bracketPortion b x = 0 := by
        cases hb : b.hi with
        | none => simp only [bracketPortion, hb, max_eq_left_iff, sub_nonpos]; linarith
        | some h =>
          simp only [bracketPortion, hb, max_eq_left_iff, sub_nonpos]
          exact le_trans (min_le_right h x) (by linarith)
      rw [specBracketTax_cons, specBreakdown_cons_neg _ hblo, hport]
      simp only [laBracketWalk, if_neg hblo, ihh]
      rw [zero_mul, zero_add]

/-- `calculate_income_tax` over a schedule anchored at zero realizes the spec
formula, for every taxable income including non-positive ones. -/
lemma calculate_income_tax_eq_spec {bs : List Bracket}
    (hc : contiguousFromB 0 bs = true) (x : ℚ) :
    (calculate_income_tax bs x).total_tax = specBracketTax bs x ∧
    (calculate_income_tax bs x).brackets_used = specBreakdown bs x := by
  by_cases hx : x ≤ 0
  · obtain ⟨h1, h2⟩ := specBracketTax_of_le hc hx
    simp [calculate_income_tax, hx, h1, h2]
  · have hwalk := fedBracketWalk_eq_spec x hc
    rw [sub_zero] at hwalk
    simp [calculate_income_tax, hx, hwalk]

/-- The federal walk total is the sum of the breakdown taxes, for every
schedule and every remaining amount. -/
lemma fedBracketWalk_sum (x : ℚ) : ∀ (bs : List Bracket) (r : ℚ),
    ((fedBracketWalk x bs r).2.map BracketUsed.tax).sum = (fedBracketWalk x bs r).1 := by
  intro bs
  induction bs with
  | nil => intro r; simp [fedBracketWalk]
  | cons b bs ih =>
    intro r
    by_cases hr : r ≤ 0
    · simp [fedBracketWalk, hr]
    · by_cases hblo : b.lo < x
      · simp [fedBracketWalk, hr, hblo, ih]
      · simp [fedBracketWalk, hr, hblo, ih]

/-- The Louisiana walk total is the sum of the breakdown taxes. -/
lemma laBracketWalk_sum (x : ℚ) : ∀ (bs : List Bracket),
    ((laBracketWalk x bs).2.map BracketUsed.tax).sum = (laBracketWalk x bs).1 := by
  intro bs
  induction bs with
  | nil => simp [laBracketWalk]
  | cons b bs ih =>
    by_cases hblo : b.lo < x
    · simp [laBracketWalk, hblo, ih]
    · simp [laBracketWalk, hblo, ih]

lemma bracketPortion_nonneg (b : Bracket) (x : ℚ) : 0 ≤ bracketPortion b x := by
  cases hb : b.hi with
  | none => simp [bracketPortion, hb]
  | some h => simp [bracketPortion, hb]

lemma bracketPortion_mono (b : Bracket) {x y : ℚ} (hxy : x ≤ y) :
    bracketPortion b x ≤ bracketPortion b y := by
  cases hb : b.hi with
  | none =>
    simp only [bracketPortion, hb]
    exact max_le_max le_rfl (by linarith)
  | some h =>
    simp only [bracketPortion, hb]
    exact max_le_max le_rfl (sub_le_sub_right (min_le_min_left h hxy) b.lo)

/-- The spec formula is monotone in the income when all rates are
non-negative. -/
lemma specBracketTax_mono {bs : List Bracket} (hr : ratesNonnegB bs = true)
    {x y : ℚ} (hxy : x ≤ y) : specBracketTax bs x ≤ specBracketTax bs y := by
  induction bs with
  | nil => simp [specBracketTax]
  | cons b bs ih =>
    simp only [ratesNonnegB, List.all_cons, Bool.and_eq_true, decide_eq_true_eq] at hr
    have ihh := ih (by simp [ratesNonnegB, hr.2])
    simp only [specBracketTax, List.map_cons, List.sum_cons] at ihh ⊢
    exact add_le_add (mul_le_mul_of_nonneg_right (bracketPortion_mono b hxy) hr.1) ihh

/-- The breakdown returned by `calculate_income_tax` sums to its total. -/
lemma calculate_income_tax_sum (bs : List Bracket) (x : ℚ) :
    ((calculate_income_tax bs x).brackets_used.map BracketUsed.tax).sum =
      (calculate_income_tax bs x).total_tax := by
  by_cases hx : x ≤ 0
  · simp [calculate_income_tax, hx]
  · simp [calculate_income_tax, hx, fedBracketWalk_sum]

/-- Monotonicity of `calculate_income_tax` over a well-formed schedule with
non-negative rates. -/
lemma calculate_income_tax_mono {bs : List Bracket}
    (hc : contiguousFromB 0 bs = true) (hr : ratesNonnegB bs = true)
    {x y : ℚ} (hxy : x ≤ y) :
    (calculate_income_tax bs x).total_tax ≤ (calculate_income_tax bs y).total_tax := by
  rw [(calculate_income_tax_eq_spec hc x).1, (calculate_income_tax_eq_spec hc y).1]
  exact specBracketTax_mono hr hxy

/-- Monotonicity of the Louisiana bracket loop over a well-formed schedule
with non-negative rates. -/
lemma laBracketWalk_mono {bs : List Bracket}
    (hc : contiguousFromB 0 bs = true) (hr : ratesNonnegB bs = true)
    {x y : ℚ} (hxy : x ≤ y) :
    (laBracketWalk x bs).1 ≤ (laBracketWalk y bs).1 := by
  rw [laBracketWalk_eq_spec x (contiguousFromB_width hc),
    laBracketWalk_eq_spec y (contiguousFromB_width hc)]
  exact specBracketTax_mono hr hxy

/-- C1: over the 2024 married-filing-jointly schedule, `calculate_income_tax`
returns as total tax the sum over brackets of the rate times the portion of
the income lying within the bracket (the spec closed form), its per-bracket
breakdown amounts sum to that total, and taxable income 100000 yields total
tax exactly 12106. -/
theorem calculate_income_tax_mfj_correct (x : ℚ) :
    (calculate_income_tax FEDERAL_TAX_BRACKETS_MFJ_2024 x).total_tax =
      specBracketTax FEDERAL_TAX_BRACKETS_MFJ_2024 x ∧
    ((calculate_income_tax FEDERAL_TAX_BRACKETS_MFJ_2024 x).brackets_used.map
        BracketUsed.tax).sum =
      (calculate_income_tax FEDERAL_TAX_BRACKETS_MFJ_2024 x).total_tax ∧
    (calculate_income_tax FEDERAL_TAX_BRACKETS_MFJ_2024 100000).total_tax = 12106 := by
  have hc : contiguousFromB 0 FEDERAL_TAX_BRACKETS_MFJ_2024 = true := by
    simp [contiguousFromB, FEDERAL_TAX_BRACKETS_MFJ_2024]
    norm_num
  refine ⟨(calculate_income_tax_eq_spec hc x).1,
    calculate_income_tax_sum FEDERAL_TAX_BRACKETS_MFJ_2024 x, ?_⟩
  simp [calculate_income_tax, fedBracketWalk, FEDERAL_TAX_BRACKETS_MFJ_2024]
  norm_num

/-- C5: both bracket evaluators return a breakdown whose amounts sum exactly
to the total tax, for every schedule and every income; and over each of the
three schedules used by the calculators (federal MFJ, federal single,
Louisiana) both evaluators are monotonically non-decreasing in taxable
income. -/
theorem bracket_evaluator_sum_and_monotone :
    (∀ bs x, ((calculate_income_tax bs x).brackets_used.map BracketUsed.tax).sum =
      (calculate_income_tax bs x).total_tax) ∧
    (∀ fs agi ne nd fid std,
      (((calculate_louisiana_income_tax fs agi ne nd fid std).brackets_used.map
          BracketUsed.tax).sum =
        (calculate_louisiana_income_tax fs agi ne nd fid std).total_tax)) ∧
    (∀ bs, bs ∈ [FEDERAL_TAX_BRACKETS_MFJ_2024, FEDERAL_TAX_BRACKETS_SINGLE_2024,
        LA_TAX_BRACKETS_2024] →
      ∀ x y, x ≤ y →
        (calculate_income_tax bs x).total_tax ≤
          (calculate_income_tax bs y).total_tax ∧
        (laBracketWalk x bs).1 ≤ (laBracketWalk y bs).1) := by
  refine ⟨calculate_income_tax_sum, ?_, ?_⟩
  · intro fs agi ne nd fid std
    simp only [calculate_louisiana_income_tax]
    exact laBracketWalk_sum _ _
  · have hcM : contiguousFromB 0 FEDERAL_TAX_BRACKETS_MFJ_2024 = true := by
      simp [contiguousFromB, FEDERAL_TAX_BRACKETS_MFJ_2024]; norm_num
    have hcS : contiguousFromB 0 FEDERAL_TAX_BRACKETS_SINGLE_2024 = true := by
      simp [contiguousFromB, FEDERAL_TAX_BRACKETS_SINGLE_2024]; norm_num
    have hcL : contiguousFromB 0 LA_TAX_BRACKETS_2024 = true := by
      simp [contiguousFromB, LA_TAX_BRACKETS_2024]; norm_num
    have hrM : ratesNonnegB FEDERAL_TAX_BRACKETS_MFJ_2024 = true := by
      simp [ratesNonnegB, FEDERAL_TAX_BRACKETS_MFJ_2024]; norm_num
    have hrS : ratesNonnegB FEDERAL_TAX_BRACKETS_SINGLE_2024 = true := by
      simp [ratesNonnegB, FEDERAL_TAX_BRACKETS_SINGLE_2024]; norm_num
    have hrL : ratesNonnegB LA_TAX_BRACKETS_2024 = true := by
      simp [ratesNonnegB, LA_TAX_BRACKETS_2024]; norm_num
    intro bs hbs x y hxy
    simp only [List.mem_cons, List.not_mem_nil, or_false] at hbs
    rcases hbs with hb | hb | hb
    · subst hb
      exact ⟨calculate_income_tax_mono hcM hrM hxy, laBracketWalk_mono hcM hrM hxy⟩
    · subst hb
      exact ⟨calculate_income_tax_mono hcS hrS hxy, laBracketWalk_mono hcS hrS hxy⟩
    · subst hb
      exact ⟨calculate_income_tax_mono hcL hrL hxy, laBracketWalk_mono hcL hrL hxy⟩

/-- Witness for `bracket_evaluator_sum_and_monotone` at the MFJ schedule and
incomes 50000 and 100000. -/
theorem bracket_evaluator_sum_and_monotone_witness :
    (calculate_income_tax FEDERAL_TAX_BRACKETS_MFJ_2024 50000).total_tax ≤
      (calculate_income_tax FEDERAL_TAX_BRACKETS_MFJ_2024 100000).total_tax ∧
    (laBracketWalk 50000 FEDERAL_TAX_BRACKETS_MFJ_2024).1 ≤
      (laBracketWalk 100000 FEDERAL_TAX_BRACKETS_MFJ_2024).1 :=
  bracket_evaluator_sum_and_monotone.2.2 FEDERAL_TAX_BRACKETS_MFJ_2024
    (by simp) 50000 100000 (by norm_num)

/-- An ordered, contiguous two-bracket schedule whose first lower bound is 10
rather than 0; it separates the two bracket loops. -/
def shiftedSchedule : List Bracket := [⟨10, some 20, 1⟩, ⟨20, none, 1⟩]

/-- C7 counterexample: on an ordered contiguous schedule that does not start
at 0, the federal walk and the Louisiana walk disagree at income 15: the
federal loop taxes `min(remaining, upper - lower) = 10` in the first bracket
while the Louisiana loop taxes `income - lower = 5`. -/
theorem fed_la_walks_differ_on_shifted_schedule :
    contiguousFromB 10 shiftedSchedule = true ∧
    (calculate_income_tax shiftedSchedule 15).total_tax = 10 ∧
    (laBracketWalk 15 shiftedSchedule).1 = 5 ∧
    (calculate_income_tax shiftedSchedule 15).total_tax ≠
      (laBracketWalk 15 shiftedSchedule).1 := by
  refine ⟨?_, ?_, ?_, ?_⟩
  · simp [contiguousFromB, shiftedSchedule]; norm_num
  · simp [calculate_income_tax, fedBracketWalk, shiftedSchedule]; norm_num
  · simp [laBracketWalk, shiftedSchedule]; norm_num
  · simp [calculate_income_tax, fedBracketWalk, laBracketWalk, shiftedSchedule]
    norm_num

/-- C7 amended: for every non-negative taxable income and every ordered
contiguous bracket schedule whose first lower bound is 0, the federal
`calculate_income_tax` bracket walk and the Louisiana inline bracket loop
return equal total tax and equal per-bracket breakdowns. -/
theorem fed_la_bracket_walks_agree (bs : List Bracket) (x : ℚ)
    (hc : contiguousFromB 0 bs = true) (hx : 0 ≤ x) :
    (calculate_income_tax bs x).total_tax = (laBracketWalk x bs).1 ∧
    (calculate_income_tax bs x).brackets_used = (laBracketWalk x bs).2 := by
  have hla := laBracketWalk_eq_spec x (contiguousFromB_width hc)
  have hfed := calculate_income_tax_eq_spec hc x
  rw [hfed.1, hfed.2, hla]
  exact ⟨rfl, rfl⟩

/-- Witness for `fed_la_bracket_walks_agree` at the Louisiana schedule and
income 30000. -/
theorem fed_la_bracket_walks_agree_witness :
    (calculate_income_tax LA_TAX_BRACKETS_2024 30000).total_tax =
      (laBracketWalk 30000 LA_TAX_BRACKETS_2024).1 ∧
    (calculate_income_tax LA_TAX_BRACKETS_2024 30000).brackets_used =
      (laBracketWalk 30000 LA_TAX_BRACKETS_2024).2 :=
  fed_la_bracket_walks_agree LA_TAX_BRACKETS_2024 30000
    (by simp [contiguousFromB, LA_TAX_BRACKETS_2024]; norm_num) (by norm_num)

/-- C3: `calculate_self_employment_tax` computes net earnings as
`net_farm_profit * 0.9235`; when that is non-positive every output field is
zero; otherwise Social Security tax is `min(net_earnings, wage base) * 0.124`,
Medicare tax is `net_earnings * 0.029`, additional Medicare tax is
`max(0, net_earnings - threshold) * 0.009` with the threshold chosen by
filing status, the total is their sum and the deductible portion is half of
it; and the additional Medicare tax is zero whenever net earnings is below
the threshold. -/
theorem self_employment_tax_correct (fs : String) (p : ℚ) :
    (p * SELF_EMPLOYMENT_DEDUCTION ≤ 0 →
      calculate_self_employment_tax fs p = ⟨p, 0, 0, none, 0, 0, 0, 0⟩) ∧
    (0 < p * SELF_EMPLOYMENT_DEDUCTION →
      (calculate_self_employment_tax fs p).net_earnings =
        p * SELF_EMPLOYMENT_DEDUCTION ∧
      (calculate_self_employment_tax fs p).social_security_tax =
        min (p * SELF_EMPLOYMENT_DEDUCTION) SOCIAL_SECURITY_WAGE_BASE_2024 * 0.124 ∧
      (calculate_self_employment_tax fs p).medicare_tax =
        p * SELF_EMPLOYMENT_DEDUCTION * 0.029 ∧
      (calculate_self_employment_tax fs p).additional_medicare_tax =
        max 0 (p * SELF_EMPLOYMENT_DEDUCTION -
          (if fs = "married_filing_jointly" then
            ADDITIONAL_MEDICARE_TAX_THRESHOLD_MFJ else 200000)) *
          ADDITIONAL_MEDICARE_TAX_RATE ∧
      (calculate_self_employment_tax fs p).total_se_tax =
        (calculate_self_employment_tax fs p).social_security_tax +
          (calculate_self_employment_tax fs p).medicare_tax +
          (calculate_self_employment_tax fs p).additional_medicare_tax ∧
      (calculate_self_employment_tax fs p).deductible_se_tax =
        (calculate_self_employment_tax fs p).total_se_tax * 0.50) ∧
    (p * SELF_EMPLOYMENT_DEDUCTION <
        (if fs = "married_filing_jointly" then
          ADDITIONAL_MEDICARE_TAX_THRESHOLD_MFJ else 200000) →
      (calculate_self_employment_tax fs p).additional_medicare_tax = 0) := by
  refine ⟨?_, ?_, ?_⟩
  · intro h0
    simp [calculate_self_employment_tax, h0]
  · intro h0
    have h0n : ¬ p * SELF_EMPLOYMENT_DEDUCTION ≤ 0 := not_le.mpr h0
    by_cases hthr : (if fs = "married_filing_jointly" then
        ADDITIONAL_MEDICARE_TAX_THRESHOLD_MFJ else (200000 : ℚ)) <
        p * SELF_EMPLOYMENT_DEDUCTION
    · have hmax : max 0 (p * SELF_EMPLOYMENT_DEDUCTION -
          (if fs = "married_filing_jointly" then
            ADDITIONAL_MEDICARE_TAX_THRESHOLD_MFJ else 200000)) =
          p * SELF_EMPLOYMENT_DEDUCTION -
            (if fs = "married_filing_jointly" then
              ADDITIONAL_MEDICARE_TAX_THRESHOLD_MFJ else 200000) :=
        max_eq_right (by linarith)
      simp [calculate_self_employment_tax, h0n, hthr, hmax]
    · have hmax : max 0 (p * SELF_EMPLOYMENT_DEDUCTION -
          (if fs = "married_filing_jointly" then
            ADDITIONAL_MEDICARE_TAX_THRESHOLD_MFJ else 200000)) = 0 :=
        max_eq_left (by push_neg at hthr; linarith)
      simp [calculate_self_employment_tax, h0n, hthr, hmax]
  · intro hlt
    by_cases h0 : p * SELF_EMPLOYMENT_DEDUCTION ≤ 0
    · simp [calculate_self_employment_tax, h0]
    · have hthr : ¬ (if fs = "married_filing_jointly" then
          ADDITIONAL_MEDICARE_TAX_THRESHOLD_MFJ else (200000 : ℚ)) <
          p * SELF_EMPLOYMENT_DEDUCTION := not_lt.mpr (le_of_lt hlt)
      simp [calculate_self_employment_tax, h0, hthr]

/-- Witness for `self_employment_tax_correct`: a 50000 profit exercises the
positive branch and the below-threshold rule; a negative profit exercises the
all-zero branch. -/
theorem self_employment_tax_correct_witness :
    calculate_self_employment_tax "single" (-100) = ⟨-100, 0, 0, none, 0, 0, 0, 0⟩ ∧
    (calculate_self_employment_tax "single" 50000).net_earnings =
      50000 * SELF_EMPLOYMENT_DEDUCTION ∧
    (calculate_self_employment_tax "single" 50000).additional_medicare_tax = 0 :=
  ⟨(self_employment_tax_correct "single" (-100)).1
      (by norm_num [SELF_EMPLOYMENT_DEDUCTION]),
   ((self_employment_tax_correct "single" 50000).2.1
      (by norm_num [SELF_EMPLOYMENT_DEDUCTION])).1,
   (self_employment_tax_correct "single" 50000).2.2
      (by simp; norm_num [SELF_EMPLOYMENT_DEDUCTION])⟩

/-- C4: in `calculate_farm_tax_liability` the net farm profit is
income minus expenses minus depreciation and may be negative (a loss flows
through unchanged and zeroes the SE tax), AGI subtracts only the deductible
half of SE tax, taxable income is floored at zero after the deduction, and
the total federal tax adds the full SE tax to the bracket income tax. -/
theorem farm_tax_liability_correct (c : FederalTaxCalculator)
    (ti te dep oi itd : ℚ) (std : Bool) :
    (calculate_farm_tax_liability c ti te dep oi itd std).net_farm_profit =
      ti - te - dep ∧
    (ti - te - dep < 0 →
      (calculate_farm_tax_liability c ti te dep oi itd std).net_farm_profit < 0 ∧
      (calculate_farm_tax_liability c ti te dep oi itd std).self_employment_tax.total_se_tax
        = 0) ∧
    (calculate_farm_tax_liability c ti te dep oi itd std).agi =
      (ti - te - dep) + oi -
        (calculate_farm_tax_liability c ti te dep oi itd std).self_employment_tax.deductible_se_tax ∧
    (calculate_farm_tax_liability c ti te dep oi itd std).taxable_income =
      max 0 ((calculate_farm_tax_liability c ti te dep oi itd std).agi -
        (if std then c.standard_deduction else itd)) ∧
    (calculate_farm_tax_liability c ti te dep oi itd std).total_federal_tax =
      (calculate_income_tax c.tax_brackets
        (calculate_farm_tax_liability c ti te dep oi itd std).taxable_income).total_tax +
      (calculate_farm_tax_liability c ti te dep oi itd std).self_employment_tax.total_se_tax := by
  have hnp : ti - (te + dep) = ti - te - dep := by ring
  refine ⟨?_, ?_, ?_, ?_, ?_⟩
  · simp [calculate_farm_tax_liability, hnp]
  · intro hneg
    have hse : ti - (te + dep) ≤ 0 := by linarith
    have hne : (ti - (te + dep)) * SELF_EMPLOYMENT_DEDUCTION ≤ 0 :=
      mul_nonpos_iff.mpr (Or.inr ⟨hse, by norm_num [SELF_EMPLOYMENT_DEDUCTION]⟩)
    constructor
    · simp [calculate_farm_tax_liability, hnp]; linarith
    · simp [calculate_farm_tax_liability, calculate_self_employment_tax, hne]
  · simp [calculate_farm_tax_liability, hnp]
  · simp [calculate_farm_tax_liability]
  · simp [calculate_farm_tax_liability]

/-- Witness for `farm_tax_liability_correct`: a farm loss of 1500 flows
through negative and zeroes the SE tax. -/
theorem farm_tax_liability_correct_witness :
    (calculate_farm_tax_liability
      (FederalTaxCalculator.init "married_filing_jointly" 2024)
      1000 2000 500 0 0 true).net_farm_profit < 0 ∧
    (calculate_farm_tax_liability
      (FederalTaxCalculator.init "married_filing_jointly" 2024)
      1000 2000 500 0 0 true).self_employment_tax.total_se_tax = 0 :=
  (farm_tax_liability_correct
    (FederalTaxCalculator.init "married_filing_jointly" 2024)
    1000 2000 500 0 0 true).2.1 (by norm_num)

/-- C9: every effective-rate output is the guarded quotient: zero whenever
its denominator is non-positive, and the plain quotient when the denominator
is strictly positive — for the federal income-tax rate, the federal total
rate, the Louisiana rate, and the combined rate over federal AGI. -/
theorem effective_rate_zero_denominator_guards :
    (∀ bs x, (x ≤ 0 → (calculate_income_tax bs x).effective_rate = 0) ∧
      (0 < x → (calculate_income_tax bs x).effective_rate =
        (calculate_income_tax bs x).total_tax / x)) ∧
    (∀ c ti te dep oi itd std,
      ((calculate_farm_tax_liability c ti te dep oi itd std).agi ≤ 0 →
        (calculate_farm_tax_liability c ti te dep oi itd std).effective_total_rate = 0) ∧
      (0 < (calculate_farm_tax_liability c ti te dep oi itd std).agi →
        (calculate_farm_tax_liability c ti te dep oi itd std).effective_total_rate =
          (calculate_farm_tax_liability c ti te dep oi itd std).total_federal_tax /
            (calculate_farm_tax_liability c ti te dep oi itd std).agi)) ∧
    (∀ fs agi ne nd fid std,
      (agi ≤ 0 →
        (calculate_louisiana_income_tax fs agi ne nd fid std).effective_rate = 0) ∧
      (0 < agi →
        (calculate_louisiana_income_tax fs agi ne nd fid std).effective_rate =
          (calculate_louisiana_income_tax fs agi ne nd fid std).total_tax / agi)) ∧
    (∀ fs ty ti te dep oi ne nd std itd,
      ((calculate_combined_tax fs ty ti te dep oi ne nd std itd).agi ≤ 0 →
        (calculate_combined_tax fs ty ti te dep oi ne nd std itd).combined_effective_rate
          = 0) ∧
      (0 < (calculate_combined_tax fs ty ti te dep oi ne nd std itd).agi →
        (calculate_combined_tax fs ty ti te dep oi ne nd std itd).combined_effective_rate =
          (calculate_combined_tax fs ty ti te dep oi ne nd std itd).total_tax_liability /
            (calculate_combined_tax fs ty ti te dep oi ne nd std itd).agi)) := by
  refine ⟨?_, ?_, ?_, ?_⟩
  · intro bs x
    constructor
    · intro hx
      simp [calculate_income_tax, hx]
    · intro hx
      simp [calculate_income_tax, not_le.mpr hx, hx]
  · intro c ti te dep oi itd std
    constructor
    · intro hagi
      simp only [calculate_farm_tax_liability] at hagi ⊢
      rw [if_neg (not_lt.mpr hagi)]
    · intro hagi
      simp only [calculate_farm_tax_liability] at hagi ⊢
      rw [if_pos hagi]
  · intro fs agi ne nd fid std
    constructor
    · intro hagi
      simp only [calculate_louisiana_income_tax]
      rw [if_neg (not_lt.mpr hagi)]
    · intro hagi
      simp only [calculate_louisiana_income_tax]
      rw [if_pos hagi]
  · intro fs ty ti te dep oi ne nd std itd
    constructor
    · intro hagi
      simp only [calculate_combined_tax] at hagi ⊢
      rw [if_neg (not_lt.mpr hagi)]
    · intro hagi
      simp only [calculate_combined_tax] at hagi ⊢
      rw [if_pos hagi]

/-- Witness for `effective_rate_zero_denominator_guards`: a negative income
yields rate 0, a positive one the quotient; a combined computation on a farm
loss yields combined rate 0. -/
theorem effective_rate_zero_denominator_guards_witness :
    (calculate_income_tax FEDERAL_TAX_BRACKETS_MFJ_2024 (-1)).effective_rate = 0 ∧
    (calculate_income_tax FEDERAL_TAX_BRACKETS_MFJ_2024 100).effective_rate =
      (calculate_income_tax FEDERAL_TAX_BRACKETS_MFJ_2024 100).total_tax / 100 ∧
    (calculate_combined_tax "married_filing_jointly" 2024 0 1000 0 0 2 0 true 0).combined_effective_rate
      = 0 :=
  ⟨(effective_rate_zero_denominator_guards.1 FEDERAL_TAX_BRACKETS_MFJ_2024 (-1)).1
      (by norm_num),
   (effective_rate_zero_denominator_guards.1 FEDERAL_TAX_BRACKETS_MFJ_2024 100).2
      (by norm_num),
   (effective_rate_zero_denominator_guards.2.2.2 "married_filing_jointly"
      2024 0 1000 0 0 2 0 true 0).1
      (by simp [calculate_combined_tax, calculate_farm_tax_liability,
        calculate_self_employment_tax, SELF_EMPLOYMENT_DEDUCTION]; norm_num)⟩

/-- C10: a filing status outside the four statuses recognized by the tables
still constructs a `FederalTaxCalculator` (construction is total and raises
nothing): the brackets silently fall back to the single-filer federal
schedule, the standard deduction to 0, and a subsequent
`calculate_farm_tax_liability` with the standard deduction subtracts 0. -/
theorem unknown_filing_status_fallback (fs : String) (y : Int)
    (h1 : fs ≠ "single") (h2 : fs ≠ "married_filing_jointly")
    (h3 : fs ≠ "married_filing_separately") (h4 : fs ≠ "head_of_household") :
    (FederalTaxCalculator.init fs y).tax_brackets =
      FEDERAL_TAX_BRACKETS_SINGLE_2024 ∧
    (FederalTaxCalculator.init fs y).standard_deduction = 0 ∧
    ∀ ti te dep oi itd,
      (calculate_farm_tax_liability (FederalTaxCalculator.init fs y)
        ti te dep oi itd true).deduction_amount = 0 ∧
      (calculate_farm_tax_liability (FederalTaxCalculator.init fs y)
        ti te dep oi itd true).taxable_income =
        max 0 ((calculate_farm_tax_liability (FederalTaxCalculator.init fs y)
          ti te dep oi itd true).agi) := by
  have e1 : (fs == "single") = false := beq_eq_false_iff_ne.mpr h1
  have e2 : (fs == "married_filing_jointly") = false := beq_eq_false_iff_ne.mpr h2
  have e3 : (fs == "married_filing_separately") = false := beq_eq_false_iff_ne.mpr h3
  have e4 : (fs == "head_of_household") = false := beq_eq_false_iff_ne.mpr h4
  have hded : get_standard_deduction fs none = 0 := by
    simp [get_standard_deduction, STANDARD_DEDUCTION_2024, List.lookup, e1, e2, e3, e4]
  have hbr : get_tax_brackets fs none = FEDERAL_TAX_BRACKETS_SINGLE_2024 := by
    simp [get_tax_brackets, h1, h2]
  refine ⟨hbr, hded, ?_⟩
  intro ti te dep oi itd
  constructor
  · simp [calculate_farm_tax_liability, FederalTaxCalculator.init, hded]
  · simp [calculate_farm_tax_liability, FederalTaxCalculator.init, hded]

/-- Witness for `unknown_filing_status_fallback` at the unrecognized filing
status string `qualifying_widow`. -/
theorem unknown_filing_status_fallback_witness :
    (FederalTaxCalculator.init "qualifying_widow" 2024).tax_brackets =
      FEDERAL_TAX_BRACKETS_SINGLE_2024 ∧
    (FederalTaxCalculator.init "qualifying_widow" 2024).standard_deduction = 0 ∧
    (calculate_farm_tax_liability
      (FederalTaxCalculator.init "qualifying_widow" 2024)
      50000 10000 5000 0 0 true).deduction_amount = 0 :=
  have h := unknown_filing_status_fallback "qualifying_widow" 2024
    (by decide) (by decide) (by decide) (by decide)
  ⟨h.1, h.2.1, (h.2.2 50000 10000 5000 0 0).1⟩

/-- C8 counterexample: `calculate_louisiana_income_tax` performs no
validation of negative counts: with `num_exemptions = -1` it proceeds,
counts the exemptions as -4500 (raising taxable income), and produces the
tax figure 843.75 instead of raising an error. -/
theorem louisiana_negative_exemptions_accepted :
    (calculate_louisiana_income_tax "single" 30000 (-1) 0 0 true).total_exemptions
      = -4500 ∧
    (calculate_louisiana_income_tax "single" 30000 (-1) 0 0 true).taxable_income
      = 30000 ∧
    (calculate_louisiana_income_tax "single" 30000 (-1) 0 0 true).total_tax
      = 3375 / 4 := by
  refine ⟨?_, ?_, ?_⟩
  · simp [calculate_louisiana_income_tax, LA_PERSONAL_EXEMPTION_2024,
      LA_DEPENDENT_EXEMPTION_2024]
  · simp [calculate_louisiana_income_tax, LA_STANDARD_DEDUCTION_2024,
      LA_PERSONAL_EXEMPTION_2024, LA_DEPENDENT_EXEMPTION_2024, List.lookup]
  · simp [calculate_louisiana_income_tax, laBracketWalk, LA_TAX_BRACKETS_2024,
      LA_STANDARD_DEDUCTION_2024, LA_PERSONAL_EXEMPTION_2024,
      LA_DEPENDENT_EXEMPTION_2024, List.lookup]
    norm_num

/-- C8 amended: `calculate_farm_income_averaging` raises a wrong-count error
exactly when the prior-year list does not have length 3; the Louisiana
calculator, by contrast, performs no validation of `num_exemptions` or
`num_dependents` and computes a tax figure from negative counts as well
(the exemption total simply goes negative). -/
theorem averaging_length_check_la_no_validation (cur : ℚ) (priors : List ℚ)
    (fs : String) (agi fid : ℚ) (ne nd : Int) (std : Bool) :
    (priors.length ≠ 3 →
      calculate_farm_income_averaging cur priors =
        .error "Must provide exactly 3 prior years of income") ∧
    (priors.length = 3 →
      (calculate_farm_income_averaging cur priors).isOk = true) ∧
    (calculate_louisiana_income_tax fs agi ne nd fid std).total_exemptions =
      (ne : ℚ) * LA_PERSONAL_EXEMPTION_2024 +
        (nd : ℚ) * LA_DEPENDENT_EXEMPTION_2024 ∧
    (calculate_louisiana_income_tax fs agi ne nd fid std).taxable_income =
      max 0 (agi -
        (calculate_louisiana_income_tax fs agi ne nd fid std).deduction_amount -
        ((ne : ℚ) * LA_PERSONAL_EXEMPTION_2024 +
          (nd : ℚ) * LA_DEPENDENT_EXEMPTION_2024)) := by
  refine ⟨?_, ?_, ?_, ?_⟩
  · intro hlen
    simp [calculate_farm_income_averaging, hlen]
  · intro hlen
    simp [calculate_farm_income_averaging, hlen, Except.isOk, Except.toBool]
  · simp [calculate_louisiana_income_tax]
  · simp [calculate_louisiana_income_tax]

/-- Witness for `averaging_length_check_la_no_validation`: a two-element list
is rejected, a three-element one accepted, and a negative exemption count at
AGI 30000 yields exemption total -4500. -/
theorem averaging_length_check_la_no_validation_witness :
    calculate_farm_income_averaging 90000 [30000, 30000] =
      .error "Must provide exactly 3 prior years of income" ∧
    (calculate_farm_income_averaging 90000 [30000, 30000, 30000]).isOk = true ∧
    (calculate_louisiana_income_tax "single" 30000 (-1) 0 0 true).total_exemptions =
      (-1 : Int) * LA_PERSONAL_EXEMPTION_2024 +
        (0 : Int) * LA_DEPENDENT_EXEMPTION_2024 :=
  ⟨(averaging_length_check_la_no_validation 90000 [30000, 30000]
      "single" 30000 0 (-1) 0 true).1 (by decide),
   (averaging_length_check_la_no_validation 90000 [30000, 30000, 30000]
      "single" 30000 0 (-1) 0 true).2.1 (by decide),
   (averaging_length_check_la_no_validation 90000 [30000, 30000]
      "single" 30000 0 (-1) 0 true).2.2.1⟩

/-- C6 counterexample: for the `27.5-year` class (absent from the half-year
percentage table) the code truncates the recovery period to the integer 27
and uses the straight-line rate 1/27, not 1/27.5 as the claim states; and
with a non-positive basis an unknown class does not raise at all. -/
theorem macrs_fallback_rate_counterexample :
    calculate_macrs_depreciation 55 "27.5-year" 1 =
      .ok ⟨55 / 27, 1 / 27, 1, some 27, true⟩ ∧
    (55 : ℚ) / 27 ≠ 55 * (1 / (27.5 : ℚ)) ∧
    (calculate_macrs_depreciation 0 "no-such-class" 1).isOk = true := by
  have hlk : MACRS_CLASSES.lookup "27.5-year" = some ⟨27.5, "mid-month", "SL"⟩ := by rfl
  have hfl : ⌊(27.5 : ℚ)⌋ = (27 : Int) := by norm_num [Int.floor_eq_iff]
  have hr27 : MACRS_DEPRECIATION_RATES_HY.lookup (27 : Int) = none := by rfl
  refine ⟨?_, by norm_num, ?_⟩
  · simp only [calculate_macrs_depreciation, hlk, hfl, hr27]
    norm_num
  · simp [calculate_macrs_depreciation, Except.isOk, Except.toBool]

/-- C6 amended: with a positive basis, `calculate_macrs_depreciation` raises
an error for every recovery class not present in the class table; for the
two classes present in the class table but absent from the half-year
percentage table it computes each year's depreciation as
`basis * (1 / int(recovery_period))`, i.e. rate 1/27 for the 27.5-year class
(the period truncated by `int()`) and 1/39 for the 39-year class. -/
theorem macrs_unknown_class_error_and_straight_line_fallback
    (cls : String) (basis : ℚ) (y : Nat) (hb : 0 < basis) (hy : 1 ≤ y) :
    (MACRS_CLASSES.lookup cls = none →
      calculate_macrs_depreciation basis cls y =
        .error ("Invalid MACRS class: " ++ cls)) ∧
    calculate_macrs_depreciation basis "27.5-year" y =
      .ok ⟨basis * (1 / 27), 1 / 27, y, some 27, true⟩ ∧
    calculate_macrs_depreciation basis "39-year" y =
      .ok ⟨basis * (1 / 39), 1 / 39, y, some 39, true⟩ := by
  have hbn : ¬ basis ≤ 0 := not_le.mpr hb
  have hy0 : 0 < y := hy
  have hlk : MACRS_CLASSES.lookup "27.5-year" = some ⟨27.5, "mid-month", "SL"⟩ := by rfl
  have hlk39 : MACRS_CLASSES.lookup "39-year" = some ⟨39, "mid-month", "SL"⟩ := by rfl
  have hfl : ⌊(27.5 : ℚ)⌋ = (27 : Int) := by norm_num [Int.floor_eq_iff]
  have hfl39 : ⌊(39 : ℚ)⌋ = (39 : Int) := by norm_num
  have hr27 : MACRS_DEPRECIATION_RATES_HY.lookup (27 : Int) = none := by rfl
  have hr39 : MACRS_DEPRECIATION_RATES_HY.lookup (39 : Int) = none := by rfl
  refine ⟨?_, ?_, ?_⟩
  · intro hcls
    simp [calculate_macrs_depreciation, hbn, hcls]
  · simp only [calculate_macrs_depreciation, if_neg hbn, hlk, hfl, hr27]
    simp [hy0]
  · simp only [calculate_macrs_depreciation, if_neg hbn, hlk39, hfl39, hr39]
    simp [hy0]

/-- Witness for `macrs_unknown_class_error_and_straight_line_fallback` at
basis 55 and year 1, including the unknown class `no-such-class`. -/
theorem macrs_unknown_class_error_and_straight_line_fallback_witness :
    calculate_macrs_depreciation 55 "no-such-class" 1 =
      .error "Invalid MACRS class: no-such-class" ∧
    calculate_macrs_depreciation 55 "27.5-year" 1 =
      .ok ⟨55 * (1 / 27), 1 / 27, 1, some 27, true⟩ :=
  have h := macrs_unknown_class_error_and_straight_line_fallback
    "no-such-class" 55 1 (by norm_num) (by norm_num)
  ⟨h.1 (by simp [MACRS_CLASSES, List.lookup]), h.2.1⟩

/-- The maximum available Section 179 deduction is never negative. -/
lemma max_available_nonneg (cost : ℚ) (tep elected : Option ℚ) :
    0 ≤ (calculate_section_179 cost tep elected).max_available := by
  rcases tep with _ | t
  · simp [calculate_section_179, SECTION_179_LIMIT_2024]
  · simp only [calculate_section_179]
    split_ifs
    · exact le_max_left 0 _
    · norm_num [SECTION_179_LIMIT_2024]

/-- The Section 179 amount is the three-way minimum of the elected amount
(defaulting to the asset cost), the asset cost and the available limit. -/
lemma calculate_section_179_amount (cost : ℚ) (tep elected : Option ℚ) :
    (calculate_section_179 cost tep elected).section_179_amount =
      min (elected.getD cost)
        (min cost (calculate_section_179 cost tep elected).max_available) ∧
    (calculate_section_179 cost tep elected).remaining_basis =
      cost - (calculate_section_179 cost tep elected).section_179_amount := by
  rcases elected with _ | e
  · refine ⟨?_, rfl⟩
    show min cost ((calculate_section_179 cost tep none).max_available) =
      min cost (min cost ((calculate_section_179 cost tep none).max_available))
    rw [← min_assoc, min_self]
  · exact ⟨rfl, rfl⟩

/-- `calculate_macrs_depreciation` never raises when the class is present in
the class table. -/
lemma calculate_macrs_depreciation_ok (basis : ℚ) (cls : String) (y : Nat)
    (hcls : (MACRS_CLASSES.lookup cls).isSome = true) :
    ∃ m, calculate_macrs_depreciation basis cls y = .ok m := by
  rcases hres : calculate_macrs_depreciation basis cls y with e | m
  · exfalso
    by_cases hbn : basis ≤ 0
    · simp only [calculate_macrs_depreciation, if_pos hbn] at hres
      exact Except.noConfusion hres
    · obtain ⟨ci, hci⟩ := Option.isSome_iff_exists.mp hcls
      rcases hrates : MACRS_DEPRECIATION_RATES_HY.lookup ⌊ci.recovery_period⌋ with
        _ | rates
      · simp only [calculate_macrs_depreciation, if_neg hbn, hci, hrates] at hres
        exact Except.noConfusion hres
      · simp only [calculate_macrs_depreciation, if_neg hbn, hci, hrates] at hres
        exact Except.noConfusion hres
  · exact ⟨m, rfl⟩

/-- C2: `calculate_total_depreciation` applies Section 179 first (the
deduction being the three-way minimum of the claim), then bonus depreciation
at the placed-in-service-year rate on the basis left after Section 179, then
one year of MACRS on the basis left after bonus, and totals the three; in
particular a 100000 seven-year asset placed in service in 2024 with Section
179 elected at 50000 and bonus elected yields bonus 30000, MACRS 2858 and
total 82858. -/
theorem total_depreciation_pipeline (sty : Int) (cost : ℚ) (cls : String)
    (d : SimpleDate) (elected tep : Option ℚ)
    (hcost : 0 ≤ cost) (helected : ∀ e ∈ elected, 0 ≤ e)
    (hcls : (MACRS_CLASSES.lookup cls).isSome = true) :
    (∃ r, calculate_total_depreciation sty cost cls (some d) none true elected
        true tep = .ok r ∧
      r.section_179 = min (elected.getD cost)
        (min cost (calculate_section_179 cost tep elected).max_available) ∧
      r.bonus_depreciation =
        (cost - r.section_179) * get_bonus_depreciation_rate d.year ∧
      (∃ m, calculate_macrs_depreciation
          (cost - r.section_179 - r.bonus_depreciation) cls 1 = .ok m ∧
        r.macrs_depreciation = m.macrs_amount) ∧
      r.total_depreciation =
        r.section_179 + r.bonus_depreciation + r.macrs_depreciation) ∧
    calculate_total_depreciation 2024 100000 "7-year" (some ⟨2024⟩) none true
        (some 50000) true none =
      .ok ⟨100000, 2024, 50000, 30000, 2858, 82858, 17142, 20000⟩ := by
  constructor
  · have hM : 0 ≤ (calculate_section_179 cost tep elected).max_available :=
      max_available_nonneg cost tep elected
    have hS := calculate_section_179_amount cost tep elected
    have hgetD : 0 ≤ elected.getD cost := by
      rcases elected with _ | e
      · exact hcost
      · exact helected e rfl
    set S : ℚ := min (elected.getD cost)
      (min cost (calculate_section_179 cost tep elected).max_available) with hSdef
    set B : ℚ := (cost - S) * get_bonus_depreciation_rate d.year with hBdef
    have hScost : S ≤ cost := le_trans (min_le_right _ _) (min_le_left _ _)
    -- value taken by the Section 179 step of the pipeline
    have hstep179 :
        (if True ∧ 0 < cost then
          ((calculate_section_179 cost tep elected).section_179_amount,
           (calculate_section_179 cost tep elected).remaining_basis)
         else ((0 : ℚ), cost)) = (S, cost - S) := by
      by_cases hc0 : 0 < cost
      · rw [if_pos ⟨trivial, hc0⟩, Prod.mk.injEq, hSdef]
        exact ⟨hS.1, by rw [hS.2, hS.1]⟩
      · have hc0e : cost = 0 := le_antisymm (not_lt.mp hc0) hcost
        have hgetD0 : 0 ≤ elected.getD (0 : ℚ) := by
          rcases elected with _ | e
          · norm_num
          · exact helected e rfl
        have hS0 : S = 0 := by
          rw [hSdef, hc0e, min_eq_left (max_available_nonneg 0 tep elected),
            min_eq_right hgetD0]
        rw [if_neg (by simp [hc0e]), Prod.mk.injEq, hS0, hc0e, sub_zero]
        exact ⟨rfl, rfl⟩
    -- value taken by the bonus step of the pipeline
    have hstepBonus :
        (if True ∧ 0 < cost - S then
          ((calculate_bonus_depreciation sty (cost - S) (some d)).bonus_amount,
           (calculate_bonus_depreciation sty (cost - S) (some d)).remaining_basis)
         else ((0 : ℚ), cost - S)) = (B, (cost - S) - B) := by
      by_cases hb1 : 0 < cost - S
      · rw [if_pos ⟨trivial, hb1⟩]
        rfl
      · have hb1e : cost - S = 0 := le_antisymm (not_lt.mp hb1) (by linarith)
        have hB0 : B = 0 := by rw [hBdef, hb1e, zero_mul]
        rw [if_neg (by simp [hb1e]), hb1e, hB0, sub_zero]
    simp only [calculate_total_depreciation]
    rw [hstep179]
    dsimp only
    rw [hstepBonus]
    dsimp only
    by_cases hm2 : 0 < (cost - S) - B
    · obtain ⟨m, hm⟩ := calculate_macrs_depreciation_ok ((cost - S) - B) cls 1 hcls
      rw [if_pos hm2, hm]
      exact ⟨⟨cost, sty, S, B, m.macrs_amount, S + B + m.macrs_amount,
        ((cost - S) - B) - m.macrs_amount, cost - S - B⟩,
        rfl, rfl, rfl, ⟨m, hm, rfl⟩, rfl⟩
    · rw [if_neg hm2]
      have hm : calculate_macrs_depreciation ((cost - S) - B) cls 1 =
          .ok ⟨0, 0, 1, none, true⟩ := by
        simp only [calculate_macrs_depreciation, if_pos (not_lt.mp hm2)]
      exact ⟨⟨cost, sty, S, B, 0, S + B + 0, (cost - S) - B, cost - S - B⟩,
        rfl, rfl, rfl, ⟨⟨0, 0, 1, none, true⟩, hm, rfl⟩, rfl⟩
  · simp [calculate_total_depreciation, calculate_section_179,
      calculate_bonus_depreciation, get_bonus_depreciation_rate,
      calculate_macrs_depreciation, MACRS_CLASSES, MACRS_DEPRECIATION_RATES_HY,
      List.lookup, SECTION_179_LIMIT_2024, SECTION_179_PHASE_OUT_THRESHOLD_2024,
      BONUS_DEPRECIATION_RATE_2024]
    norm_num

/-- Witness for `total_depreciation_pipeline` at the spec scenario: 100000
cost, 7-year class, placed in service 2024, Section 179 elected at 50000. -/
theorem total_depreciation_pipeline_witness :
    (∃ r, calculate_total_depreciation 2024 100000 "7-year" (some ⟨2024⟩) none true
        (some 50000) true none = .ok r ∧
      r.section_179 = min ((some (50000 : ℚ)).getD 100000)
        (min 100000 (calculate_section_179 100000 none (some 50000)).max_available) ∧
      r.bonus_depreciation =
        (100000 - r.section_179) * get_bonus_depreciation_rate (2024 : Int) ∧
      (∃ m, calculate_macrs_depreciation
          (100000 - r.section_179 - r.bonus_depreciation) "7-year" 1 = .ok m ∧
        r.macrs_depreciation = m.macrs_amount) ∧
      r.total_depreciation =
        r.section_179 + r.bonus_depreciation + r.macrs_depreciation) ∧
    calculate_total_depreciation 2024 100000 "7-year" (some ⟨2024⟩) none true
        (some 50000) true none =
      .ok ⟨100000, 2024, 50000, 30000, 2858, 82858, 17142, 20000⟩ :=
  total_depreciation_pipeline 2024 100000 "7-year" ⟨2024⟩ (some 50000) none
    (by norm_num) (by simp) (by rfl)

end TaxAssistant
